import Mathlib

/-!
Verification development for the credential-verification UI components
(`VerificationPortal.tsx` and `StudentWallet.tsx`).

The components are shallowly embedded: React `useState` fields become the
fields of a state record, each event handler becomes a pure function from
the state (plus oracles standing for the external services) to the new
state, together with observation flags recording which external calls were
made on that run.  JavaScript truthiness of strings (`''` is falsy) and of
`null`/`undefined` is made explicit, and `String.prototype.trim` is
embedded as a character-level function `jsTrim`.
-/

/-- On-chain credential record, as rendered by the UI
(`src/types/credential`, fields as used in the components). -/
structure Credential where
  tokenId : String
  degree : String
  institution : String
  issueDate : Nat
  student : String
  ipfsHash : String
  revoked : Bool
deriving Repr, DecidableEq

/-- Backing-store credential record (`CredentialRecord` from the
database utility module), fields as used in `StudentWallet.tsx`. -/
structure CredentialRecord where
  id : String
  token_id : String
  degree : String
deriving Repr, DecidableEq

/-- Whitespace as recognised by the JavaScript `trim` used at
`VerificationPortal.tsx:68`: the WhiteSpace production (tab, vertical
tab, form feed, space, no-break space, BOM and every Unicode
space-separator code point: U+1680, U+2000..U+200A, U+202F, U+205F,
U+3000) together with the LineTerminator production (LF, CR, line
separator, paragraph separator). -/
def isJsWhitespace (c : Char) : Bool :=
  c == ' ' || c == '\t' || c == '\n' || c == '\r' ||
  c == Char.ofNat 0x0b || c == Char.ofNat 0x0c ||
  c == Char.ofNat 0xa0 || c == Char.ofNat 0x1680 ||
  (decide (0x2000 ≤ c.toNat) && decide (c.toNat ≤ 0x200a)) ||
  c == Char.ofNat 0x2028 || c == Char.ofNat 0x2029 ||
  c == Char.ofNat 0x202f || c == Char.ofNat 0x205f ||
  c == Char.ofNat 0x3000 || c == Char.ofNat 0xfeff

/-- Strip leading and trailing whitespace from a character list. -/
def trimChars (l : List Char) : List Char :=
  ((l.dropWhile isJsWhitespace).reverse.dropWhile isJsWhitespace).reverse

/-- Embedding of `String.prototype.trim`. -/
def jsTrim (s : String) : String := ⟨trimChars s.data⟩

/-- The `useState` view state of `VerificationPortal`
(`VerificationPortal.tsx:10-19`), one field per hook, in source order. -/
structure PortalState where
  tokenId : String
  credential : Option Credential
  loading : Bool
  error : Option String
  searched : Bool
  walletAddress : Option String
  hasAccess : Bool
  checkingAccess : Bool
  showPricing : Bool
  verificationCount : Nat
deriving Repr, DecidableEq

/-- Initial portal state: the `useState` initialisers at
`VerificationPortal.tsx:10-19`. -/
def initialPortalState : PortalState :=
  { tokenId := "", credential := none, loading := false, error := none,
    searched := false, walletAddress := none, hasAccess := false,
    checkingAccess := false, showPricing := false, verificationCount := 0 }

/-- Oracle for one call of the external `verifyCredential` service
(`VerificationPortal.tsx:85`): it resolves with a credential, resolves
with `null`, or throws an error whose `message` property may be absent. -/
inductive VerifyOutcome where
  | ok (result : Option Credential)
  | threw (msg : Option String)
deriving Repr, DecidableEq

/-- Result of one run of `handleVerify`: the new state, whether the
external service `verifyCredential` was invoked, and whether the run was
rejected by the free-tier cap branch (`VerificationPortal.tsx:73-77`). -/
structure VerifyResult where
  state : PortalState
  serviceCalled : Bool
  blockedByCap : Bool
deriving Repr, DecidableEq

/-- Error message set on empty input (`VerificationPortal.tsx:69`). -/
def emptyMsg : String := "Please enter a token ID"

/-- Error message set on a cap rejection (`VerificationPortal.tsx:74`). -/
def limitMsg : String := "Verification limit reached. Please subscribe to continue."

/-- Error message set on a `null` lookup result
(`VerificationPortal.tsx:92`). -/
def notFoundMsg : String := "Credential not found or invalid token ID"

/-- Generic error fallback (`VerificationPortal.tsx:95`). -/
def fallbackMsg : String := "Failed to verify credential"

/-- `const idToVerify = id || tokenId` (`VerificationPortal.tsx:67`):
an absent argument or the falsy empty string falls back to the
`tokenId` state. -/
def resolveId (id : Option String) (tokenId : String) : String :=
  match id with
  | none => tokenId
  | some v => if v = "" then tokenId else v

/-- Embedding of `handleVerify` (`VerificationPortal.tsx:66-99`).
The `outcome` oracle stands for the single awaited
`verifyCredential(idToVerify)` call; it is consulted only when control
reaches that call. -/
def handleVerify (s : PortalState) (id : Option String)
    (outcome : VerifyOutcome) : VerifyResult :=
  let idToVerify := resolveId id s.tokenId
  if jsTrim idToVerify = "" then
    ⟨{ s with error := some emptyMsg }, false, false⟩
  else if s.walletAddress.isSome && !s.hasAccess
      && decide (3 ≤ s.verificationCount) then
    ⟨{ s with error := some limitMsg, showPricing := true }, false, true⟩
  else
    let s1 := { s with loading := true, error := none,
                       credential := none, searched := true }
    match outcome with
    | .ok (some c) =>
      let s2 := { s1 with credential := some c }
      let s3 := if s.walletAddress.isSome && !s.hasAccess then
                  { s2 with verificationCount := s2.verificationCount + 1 }
                else s2
      ⟨{ s3 with loading := false }, true, false⟩
    | .ok none =>
      ⟨{ s1 with error := some notFoundMsg, loading := false }, true, false⟩
    | .threw msg =>
      let m := match msg with
        | some m => if m = "" then fallbackMsg else m
        | none => fallbackMsg
      ⟨{ s1 with error := some m, loading := false }, true, false⟩

/-- The verification result panel is rendered exactly when `searched`
is set and a credential is present (`VerificationPortal.tsx:194`). -/
def resultPanelRendered (s : PortalState) : Bool :=
  s.searched && s.credential.isSome

/-- Embedding of `checkAccess` (`VerificationPortal.tsx:57-64`): for a
connected wallet, stores the `hasAccess` flag returned by
`checkUserSubscription(walletAddress, 'employer')`; otherwise a no-op. -/
def checkAccess (s : PortalState) (subscriptionHasAccess : Bool) : PortalState :=
  match s.walletAddress with
  | none => s
  | some _ => { s with hasAccess := subscriptionHasAccess, checkingAccess := false }

/-- A session of verification attempts: fold `handleVerify` over a list
of (argument, service outcome) pairs, recording each per-attempt result. -/
def runTrace (s : PortalState) :
    List (Option String × VerifyOutcome) → List VerifyResult
  | [] => []
  | (id, o) :: rest =>
    let r := handleVerify s id o
    r :: runTrace r.state rest

/-- Attempts whose lookup resolved with a credential. -/
def isOkSome : VerifyOutcome → Bool
  | .ok (some _) => true
  | _ => false

/-- Number of attempts in the list whose lookup outcome is a credential. -/
def countOkSome (l : List (Option String × VerifyOutcome)) : Nat :=
  (l.filter fun p => isOkSome p.2).length

/-- The mount effect of `VerificationPortal` that reads the `verify`
query parameter (`VerificationPortal.tsx:21-29`): when the parameter is
present and truthy, the token-ID input is set to it and `handleVerify`
is invoked with it.  `invokedWith` records the argument of that
invocation, `none` when `handleVerify` was not invoked. -/
structure MountResult where
  state : PortalState
  invokedWith : Option String
deriving Repr, DecidableEq

/-- See `MountResult`. -/
def mountVerifyEffect (s : PortalState) (verifyParam : Option String)
    (outcome : VerifyOutcome) : MountResult :=
  match verifyParam with
  | none => ⟨s, none⟩
  | some v =>
    if v = "" then ⟨s, none⟩
    else ⟨(handleVerify { s with tokenId := v } (some v) outcome).state, some v⟩

/-- Tabs of `StudentWallet` (`StudentWallet.tsx:14`). -/
inductive WalletTab where
  | credentials
  | profile
deriving Repr, DecidableEq

/-- The `useState` view state of `StudentWallet`
(`StudentWallet.tsx:14-22`), one field per hook, in source order. -/
structure WalletState where
  activeTab : WalletTab
  walletAddress : Option String
  credentials : List Credential
  loading : Bool
  selectedCredential : Option Credential
  shareCredential : Option CredentialRecord
  viewAuditCredential : Option String
  dbCredentials : List CredentialRecord
  view3D : Bool
deriving Repr, DecidableEq

/-- Initial wallet state: the `useState` initialisers at
`StudentWallet.tsx:14-22`. -/
def initialWalletState : WalletState :=
  { activeTab := .credentials, walletAddress := none, credentials := [],
    loading := false, selectedCredential := none, shareCredential := none,
    viewAuditCredential := none, dbCredentials := [], view3D := false }

/-- Oracle for one awaited external call that either resolves with a
value or throws. -/
inductive StepOutcome (α : Type) where
  | ok (v : α)
  | threw
deriving Repr, DecidableEq

/-- The connect screen is shown exactly when no wallet address is set
(`StudentWallet.tsx:80`). -/
def connectScreenShown (s : WalletState) : Bool :=
  s.walletAddress.isNone

/-- Result of one run of `loadCredentials`: the new state, whether the
backing-store fetch was reached, and whether a failure was caught and
logged by the `catch` block. -/
structure LoadResult where
  state : WalletState
  dbFetchAttempted : Bool
  errorLogged : Bool
deriving Repr, DecidableEq

/-- Embedding of `loadCredentials` (`StudentWallet.tsx:58-70`): the
on-chain fetch `getStudentCredentials` and the backing-store fetch
`getCredentialsByStudent` are sequential awaits inside one
`try`/`catch`; a throw from either jumps to the `catch`, which only
logs, and the `finally` clears the loading flag. -/
def loadCredentials (s : WalletState)
    (onChain : StepOutcome (List Credential))
    (db : StepOutcome (List CredentialRecord)) : LoadResult :=
  let s1 := { s with loading := true }
  match onChain with
  | .threw => ⟨{ s1 with loading := false }, false, true⟩
  | .ok creds =>
    let s2 := { s1 with credentials := creds }
    match db with
    | .threw => ⟨{ s2 with loading := false }, true, true⟩
    | .ok dbCreds =>
      ⟨{ s2 with dbCredentials := dbCreds, loading := false }, true, false⟩

/-- Result of one run of `handleConnectWallet`: the new state and
whether some failure along the flow was caught and logged (either by
its own `catch` or by the one inside `loadCredentials`). -/
structure ConnectResult where
  state : WalletState
  failureLogged : Bool
deriving Repr, DecidableEq

/-- Embedding of `handleConnectWallet` (`StudentWallet.tsx:42-56`):
awaits `connectWallet`; on a truthy address it stores the address,
then awaits `switchToSepolia`, then starts `loadCredentials(address)`
(not awaited; that call catches its own failures).  A throw from
`connectWallet` or `switchToSepolia` jumps to the `catch`, which only
logs; the `finally` clears the loading flag. -/
def handleConnectWallet (s : WalletState)
    (connectRes : StepOutcome (Option String))
    (switchRes : StepOutcome Unit)
    (onChain : StepOutcome (List Credential))
    (db : StepOutcome (List CredentialRecord)) : ConnectResult :=
  let s1 := { s with loading := true }
  match connectRes with
  | .threw => ⟨{ s1 with loading := false }, true⟩
  | .ok none => ⟨{ s1 with loading := false }, false⟩
  | .ok (some addr) =>
    let s2 := { s1 with walletAddress := some addr }
    match switchRes with
    | .threw => ⟨{ s2 with loading := false }, true⟩
    | .ok _ =>
      let r := loadCredentials s2 onChain db
      ⟨{ r.state with loading := false }, r.errorLogged⟩

/-! ### Basic lemmas about `handleVerify` -/

/-- `handleVerify` never changes the token-ID input, the connected
wallet address, or the subscription flag. -/
theorem handleVerify_fixed (s : PortalState) (id : Option String) (o : VerifyOutcome) :
    (handleVerify s id o).state.tokenId = s.tokenId ∧
    (handleVerify s id o).state.walletAddress = s.walletAddress ∧
    (handleVerify s id o).state.hasAccess = s.hasAccess := by
  unfold handleVerify
  dsimp only
  split
  · exact ⟨rfl, rfl, rfl⟩
  split
  · exact ⟨rfl, rfl, rfl⟩
  cases o with
  | ok r =>
    cases r with
    | none => exact ⟨rfl, rfl, rfl⟩
    | some c =>
      dsimp only
      split <;> exact ⟨rfl, rfl, rfl⟩
  | threw m => exact ⟨rfl, rfl, rfl⟩

/-- A cap-rejected run changes nothing but the error message and the
pricing-prompt flag, and does not call the service. -/
theorem handleVerify_blocked_state (s : PortalState) (id : Option String)
    (o : VerifyOutcome) (hb : (handleVerify s id o).blockedByCap = true) :
    handleVerify s id o
      = ⟨{ s with error := some limitMsg, showPricing := true }, false, true⟩ := by
  unfold handleVerify at hb ⊢
  dsimp only at hb ⊢
  split at hb <;> rename_i h1
  · exact absurd hb (by simp)
  split at hb <;> rename_i h2
  · rw [if_neg h1, if_pos h2]
  · exfalso
    cases o with
    | ok r =>
      cases r with
      | none => simp at hb
      | some c => simp at hb
    | threw m => simp at hb

/-- With a connected wallet, no subscription and non-empty trimmed
input, a run is cap-rejected exactly when the session counter has
reached 3. -/
theorem handleVerify_capped_blocked (s : PortalState) (id : Option String)
    (o : VerifyOutcome) (hw : s.walletAddress.isSome = true)
    (ha : s.hasAccess = false)
    (hin : jsTrim (resolveId id s.tokenId) ≠ "") :
    (handleVerify s id o).blockedByCap = decide (3 ≤ s.verificationCount) := by
  cases o with
  | ok r =>
    cases r <;> by_cases hd : 3 ≤ s.verificationCount <;>
      simp [handleVerify, hin, hw, ha, hd]
  | threw m =>
    by_cases hd : 3 ≤ s.verificationCount <;>
      simp [handleVerify, hin, hw, ha, hd]

/-- Counter evolution for a connected, non-subscribed visitor with
non-empty trimmed input: unchanged when already at the cap, otherwise
incremented exactly when the lookup returns a credential. -/
theorem handleVerify_capped_count (s : PortalState) (id : Option String)
    (o : VerifyOutcome) (hw : s.walletAddress.isSome = true)
    (ha : s.hasAccess = false)
    (hin : jsTrim (resolveId id s.tokenId) ≠ "") :
    (handleVerify s id o).state.verificationCount =
      if 3 ≤ s.verificationCount then s.verificationCount
      else s.verificationCount + (if isOkSome o then 1 else 0) := by
  cases o with
  | ok r =>
    cases r <;> by_cases hd : 3 ≤ s.verificationCount <;>
      simp [handleVerify, isOkSome, hin, hw, ha, hd]
  | threw m =>
    by_cases hd : 3 ≤ s.verificationCount <;>
      simp [handleVerify, isOkSome, hin, hw, ha, hd]

/-- With non-empty trimmed input, the service is called exactly when
the run is not cap-rejected. -/
theorem handleVerify_called (s : PortalState) (id : Option String)
    (o : VerifyOutcome) (hin : jsTrim (resolveId id s.tokenId) ≠ "") :
    (handleVerify s id o).serviceCalled = !(handleVerify s id o).blockedByCap := by
  unfold handleVerify
  dsimp only
  rw [if_neg hin]
  split
  · rfl
  cases o with
  | ok r =>
    cases r with
    | none => rfl
    | some c => rfl
  | threw m => rfl

/-- An unconnected visitor is never cap-rejected. -/
theorem handleVerify_noWallet_notBlocked (s : PortalState) (id : Option String)
    (o : VerifyOutcome) (hw : s.walletAddress = none) :
    (handleVerify s id o).blockedByCap = false := by
  unfold handleVerify
  dsimp only
  split
  · rfl
  split <;> rename_i h2
  · exact absurd h2 (by rw [hw]; simp)
  · cases o with
    | ok r =>
      cases r with
      | none => rfl
      | some c => rfl
    | threw m => rfl

/-- A subscribed visitor is never cap-rejected and never has the
session counter incremented. -/
theorem handleVerify_hasAccess_step (s : PortalState) (id : Option String)
    (o : VerifyOutcome) (ha : s.hasAccess = true) :
    (handleVerify s id o).blockedByCap = false ∧
    (handleVerify s id o).state.verificationCount = s.verificationCount := by
  unfold handleVerify
  dsimp only
  split
  · exact ⟨rfl, rfl⟩
  split <;> rename_i h2
  · exact absurd h2 (by rw [ha]; simp)
  · cases o with
    | ok r =>
      cases r with
      | none => exact ⟨rfl, rfl⟩
      | some c =>
        refine ⟨rfl, ?_⟩
        dsimp only
        rw [ha]
        simp
    | threw m => exact ⟨rfl, rfl⟩

/-! ### Session (trace) lemmas -/

theorem runTrace_length (s : PortalState)
    (l : List (Option String × VerifyOutcome)) :
    (runTrace s l).length = l.length := by
  induction l generalizing s with
  | nil => rfl
  | cons p rest ih => simp [runTrace, ih]

theorem countOkSome_nil : countOkSome [] = 0 := rfl

theorem countOkSome_cons (p : Option String × VerifyOutcome)
    (l : List (Option String × VerifyOutcome)) :
    countOkSome (p :: l) = (if isOkSome p.2 then 1 else 0) + countOkSome l := by
  simp only [countOkSome, List.filter_cons]
  split <;> simp [Nat.add_comm]

theorem countOkSome_take_le (l : List (Option String × VerifyOutcome))
    (i : Nat) : countOkSome (l.take i) ≤ i := by
  calc countOkSome (l.take i) ≤ (l.take i).length := List.length_filter_le _ _
    _ ≤ i := by rw [List.length_take]; exact Nat.min_le_left _ _

/-- Every cap-rejected attempt of a session skips the service, sets the
limit error and opens the pricing prompt. -/
theorem runTrace_blocked_effects (s : PortalState)
    (l : List (Option String × VerifyOutcome)) :
    ∀ r ∈ runTrace s l, r.blockedByCap = true →
      r.serviceCalled = false ∧ r.state.error = some limitMsg ∧
      r.state.showPricing = true := by
  induction l generalizing s with
  | nil => intro r hr; simp [runTrace] at hr
  | cons p rest ih =>
    intro r hr
    simp only [runTrace, List.mem_cons] at hr
    rcases hr with hr | hr
    · subst hr
      intro hb
      rw [handleVerify_blocked_state s p.1 p.2 hb]
      exact ⟨rfl, rfl, rfl⟩
    · exact ih _ r hr

/-- In a session whose attempts all have non-empty trimmed input, every
attempt calls the service unless it is cap-rejected. -/
theorem runTrace_serviceCalled (s : PortalState)
    (l : List (Option String × VerifyOutcome))
    (hin : ∀ p ∈ l, jsTrim (resolveId p.1 s.tokenId) ≠ "") :
    ∀ r ∈ runTrace s l, r.serviceCalled = !r.blockedByCap := by
  induction l generalizing s with
  | nil => intro r hr; simp [runTrace] at hr
  | cons p rest ih =>
    intro r hr
    simp only [runTrace, List.mem_cons] at hr
    rcases hr with hr | hr
    · subst hr
      exact handleVerify_called s p.1 p.2 (hin p (by simp))
    · refine ih _ ?_ r hr
      intro q hq
      rw [(handleVerify_fixed s p.1 p.2).1]
      exact hin q (by simp [hq])

/-- Cap characterisation along a session for a connected,
non-subscribed visitor: the attempt at index `i` is cap-rejected
exactly when the starting counter plus the number of earlier successful
lookups has reached 3. -/
theorem capped_trace (l : List (Option String × VerifyOutcome))
    (s : PortalState) (hw : s.walletAddress.isSome = true)
    (ha : s.hasAccess = false) (hc : s.verificationCount ≤ 3)
    (hin : ∀ p ∈ l, jsTrim (resolveId p.1 s.tokenId) ≠ "") :
    ∀ i (h : i < (runTrace s l).length),
      ((runTrace s l).get ⟨i, h⟩).blockedByCap
        = decide (3 ≤ s.verificationCount + countOkSome (l.take i)) := by
  induction l generalizing s with
  | nil => intro i h; simp [runTrace] at h
  | cons p rest ih =>
    intro i h
    have hin0 : jsTrim (resolveId p.1 s.tokenId) ≠ "" := hin p (by simp)
    have hfix := handleVerify_fixed s p.1 p.2
    have hcount := handleVerify_capped_count s p.1 p.2 hw ha hin0
    match i with
    | 0 =>
      have hget : (runTrace s (p :: rest)).get ⟨0, h⟩ = handleVerify s p.1 p.2 := rfl
      rw [hget, handleVerify_capped_blocked s p.1 p.2 hw ha hin0]
      simp [countOkSome]
    | Nat.succ j =>
      have h' : j < (runTrace (handleVerify s p.1 p.2).state rest).length := by
        have := h
        simp only [runTrace_length, List.length_cons] at this ⊢
        omega
      have hget : (runTrace s (p :: rest)).get ⟨j + 1, h⟩
          = (runTrace (handleVerify s p.1 p.2).state rest).get ⟨j, h'⟩ := rfl
      have hw' : (handleVerify s p.1 p.2).state.walletAddress.isSome = true := by
        rw [hfix.2.1]; exact hw
      have ha' : (handleVerify s p.1 p.2).state.hasAccess = false := by
        rw [hfix.2.2]; exact ha
      have hc' : (handleVerify s p.1 p.2).state.verificationCount ≤ 3 := by
        rw [hcount]; split
        · exact hc
        · split <;> omega
      have hin' : ∀ q ∈ rest,
          jsTrim (resolveId q.1 (handleVerify s p.1 p.2).state.tokenId) ≠ "" := by
        intro q hq
        rw [hfix.1]
        exact hin q (by simp [hq])
      rw [hget, ih (handleVerify s p.1 p.2).state hw' ha' hc' hin' j h']
      rw [List.take_succ_cons, countOkSome_cons, hcount]
      simp only [decide_eq_decide]
      split_ifs <;> omega

/-! ### Concrete sample values used by witnesses and counterexamples -/

/-- A sample credential for concrete evaluations. -/
def sampleCred : Credential :=
  { tokenId := "1", degree := "BSc", institution := "MIT", issueDate := 1700000000,
    student := "0x1234567890abcdef", ipfsHash := "QmHash", revoked := false }

/-! ### Claims about `VerificationPortal` -/

/-- Claim C2: whenever the token ID to verify (the argument, falling
back to the `tokenId` state) is empty, `handleVerify` sets the error
state to "Please enter a token ID" and never calls the verification
service. -/
theorem claim_c2_empty_input (s : PortalState) (id : Option String)
    (o : VerifyOutcome) (h : resolveId id s.tokenId = "") :
    (handleVerify s id o).state.error = some emptyMsg ∧
    (handleVerify s id o).serviceCalled = false := by
  unfold handleVerify
  dsimp only
  rw [h, if_pos (show jsTrim "" = "" from rfl)]
  exact ⟨rfl, rfl⟩

/-- Witness for C2 at the initial state with no argument. -/
theorem claim_c2_empty_input_witness :
    (handleVerify initialPortalState none (.ok none)).state.error = some emptyMsg ∧
    (handleVerify initialPortalState none (.ok none)).serviceCalled = false :=
  claim_c2_empty_input initialPortalState none (.ok none) rfl

/-- Claim C3: whenever the verification service returns `null` (and was
actually consulted), the error state becomes "Credential not found or
invalid token ID", the credential state is `null`, and the result panel
is not rendered. -/
theorem claim_c3_null_result (s : PortalState) (id : Option String)
    (h : (handleVerify s id (.ok none)).serviceCalled = true) :
    (handleVerify s id (.ok none)).state.error = some notFoundMsg ∧
    (handleVerify s id (.ok none)).state.credential = none ∧
    resultPanelRendered (handleVerify s id (.ok none)).state = false := by
  unfold handleVerify at h ⊢
  dsimp only at h ⊢
  split at h <;> rename_i h1
  · exact absurd h (by simp)
  split at h <;> rename_i h2
  · exact absurd h (by simp)
  rw [if_neg h1, if_neg h2]
  exact ⟨rfl, rfl, rfl⟩

/-- Sample state for the C3 witness: a non-empty token-ID input. -/
def c3State : PortalState := { initialPortalState with tokenId := "42" }

/-- Witness for C3 at a state with input "42". -/
theorem claim_c3_null_result_witness :
    (handleVerify c3State none (.ok none)).state.error = some notFoundMsg ∧
    (handleVerify c3State none (.ok none)).state.credential = none ∧
    resultPanelRendered (handleVerify c3State none (.ok none)).state = false :=
  claim_c3_null_result c3State none (by decide)

/-- Helper: a list of whitespace characters trims to the empty list. -/
theorem trimChars_of_whitespace (l : List Char)
    (h : ∀ c ∈ l, isJsWhitespace c = true) : trimChars l = [] := by
  unfold trimChars
  rw [List.dropWhile_eq_nil_iff.mpr h]
  rfl

/-- Claim C9: an input consisting only of whitespace characters is
treated like an empty input: the "Please enter a token ID" error is set
and the verification service is never called. -/
theorem claim_c9_whitespace_input (s : PortalState) (id : Option String)
    (o : VerifyOutcome)
    (h : ∀ c ∈ (resolveId id s.tokenId).data, isJsWhitespace c = true) :
    (handleVerify s id o).state.error = some emptyMsg ∧
    (handleVerify s id o).serviceCalled = false := by
  have ht : jsTrim (resolveId id s.tokenId) = "" := by
    unfold jsTrim
    rw [trimChars_of_whitespace _ h]
  unfold handleVerify
  dsimp only
  rw [if_pos ht]
  exact ⟨rfl, rfl⟩

/-- Witness for C9 with an input of two spaces, an ideographic space
(U+3000), an en quad (U+2000) and a tab. -/
theorem claim_c9_whitespace_input_witness :
    (handleVerify initialPortalState (some "  　 \t")
        (.ok (some sampleCred))).state.error = some emptyMsg ∧
    (handleVerify initialPortalState (some "  　 \t")
        (.ok (some sampleCred))).serviceCalled = false :=
  claim_c9_whitespace_input initialPortalState (some "  　 \t")
    (.ok (some sampleCred)) (by decide)

/-- Claim C10: a cap-rejected attempt changes only the error message
and the pricing-prompt flag; every other state field (credential,
searched, loading, token-ID input, counter, ...) keeps its prior value,
so the rendering of a previous verification result is unchanged. -/
theorem claim_c10_cap_rejection_preserves_state (s : PortalState)
    (id : Option String) (o : VerifyOutcome)
    (h : (handleVerify s id o).blockedByCap = true) :
    (handleVerify s id o).state
      = { s with error := some limitMsg, showPricing := true } ∧
    (handleVerify s id o).serviceCalled = false ∧
    resultPanelRendered (handleVerify s id o).state = resultPanelRendered s := by
  rw [handleVerify_blocked_state s id o h]
  exact ⟨rfl, rfl, rfl⟩

/-- Sample state for the C10 witness: connected, non-subscribed, at the
cap, with a previously displayed result. -/
def c10State : PortalState :=
  { initialPortalState with
    walletAddress := some "0xEmployer",
    verificationCount := 3, tokenId := "5", searched := true,
    credential := some sampleCred }

/-- Witness for C10 at a capped state with a displayed result. -/
theorem claim_c10_cap_rejection_preserves_state_witness :
    (handleVerify c10State none (.ok none)).state
      = { c10State with error := some limitMsg, showPricing := true } ∧
    (handleVerify c10State none (.ok none)).serviceCalled = false ∧
    resultPanelRendered (handleVerify c10State none (.ok none)).state
      = resultPanelRendered c10State :=
  claim_c10_cap_rejection_preserves_state c10State none (.ok none) (by decide)

/-- Claim C8: when the page loads with a non-empty `verify` query
parameter, the token-ID input state ends up equal to that value,
`handleVerify` is invoked automatically with exactly that value, and
inside that invocation the id it resolves to verify is that value. -/
theorem claim_c8_deep_link (s : PortalState) (v : String) (o : VerifyOutcome)
    (hv : v ≠ "") :
    (mountVerifyEffect s (some v) o).invokedWith = some v ∧
    (mountVerifyEffect s (some v) o).state.tokenId = v ∧
    resolveId (some v) ({ s with tokenId := v } : PortalState).tokenId = v := by
  unfold mountVerifyEffect
  dsimp only
  rw [if_neg hv]
  refine ⟨rfl, ?_, ?_⟩
  · rw [(handleVerify_fixed { s with tokenId := v } (some v) o).1]
  · simp [resolveId, hv]

/-- Witness for C8 with parameter "123". -/
theorem claim_c8_deep_link_witness :
    (mountVerifyEffect initialPortalState (some "123") (.ok none)).invokedWith
      = some "123" ∧
    (mountVerifyEffect initialPortalState (some "123") (.ok none)).state.tokenId
      = "123" ∧
    resolveId (some "123")
      ({ initialPortalState with tokenId := "123" } : PortalState).tokenId = "123" :=
  claim_c8_deep_link initialPortalState "123" (.ok none) (by decide)

/-- Session start state for C1 evaluations: connected, non-subscribed. -/
def c1State : PortalState :=
  { initialPortalState with walletAddress := some "0xVerifier" }

/-- Four attempts whose lookups all fail (credential not found). -/
def c1FailAttempts : List (Option String × VerifyOutcome) :=
  List.replicate 4 (some "7", .ok none)

/-- Four attempts whose lookups all return a credential. -/
def c1OkAttempts : List (Option String × VerifyOutcome) :=
  List.replicate 4 (some "7", .ok (some sampleCred))

/-- Counterexample to C1 as stated: in a connected, non-subscribed
session whose first three lookups fail, the 4th attempt is NOT blocked
by the cap and the verification service IS called — the cap counts
successful verifications, not attempts. -/
theorem claim_c1_counterexample :
    ((runTrace c1State c1FailAttempts).get ⟨3, by decide⟩).blockedByCap = false ∧
    ((runTrace c1State c1FailAttempts).get ⟨3, by decide⟩).serviceCalled = true := by
  decide

/-- Claim C1 (amended): in a session of a connected, non-subscribed
visitor starting at counter 0 in which every attempt has non-empty
trimmed input, the attempt at (0-based) index `i` is cap-rejected
exactly when at least 3 earlier attempts had a successful lookup; in
particular the first three attempts are never cap-rejected, every
cap-rejected attempt sets the limit error and opens the pricing prompt
without calling the service, and every non-rejected attempt calls the
service (so when all lookups succeed, exactly the 4th and later
attempts are blocked). -/
theorem claim_c1_capped_session (s : PortalState)
    (l : List (Option String × VerifyOutcome))
    (hw : s.walletAddress.isSome = true) (ha : s.hasAccess = false)
    (hc : s.verificationCount = 0)
    (hin : ∀ p ∈ l, jsTrim (resolveId p.1 s.tokenId) ≠ "") :
    ∀ i (h : i < (runTrace s l).length),
      (((runTrace s l).get ⟨i, h⟩).blockedByCap
          = decide (3 ≤ countOkSome (l.take i))) ∧
      (i < 3 → ((runTrace s l).get ⟨i, h⟩).blockedByCap = false) ∧
      (((runTrace s l).get ⟨i, h⟩).blockedByCap = true →
        ((runTrace s l).get ⟨i, h⟩).serviceCalled = false ∧
        ((runTrace s l).get ⟨i, h⟩).state.error = some limitMsg ∧
        ((runTrace s l).get ⟨i, h⟩).state.showPricing = true) ∧
      (((runTrace s l).get ⟨i, h⟩).blockedByCap = false →
        ((runTrace s l).get ⟨i, h⟩).serviceCalled = true) := by
  intro i h
  have hb := capped_trace l s hw ha (by omega) hin i h
  rw [hc, Nat.zero_add] at hb
  refine ⟨hb, ?_, ?_, ?_⟩
  · intro hi3
    rw [hb]
    have hle := countOkSome_take_le l i
    simp only [decide_eq_false_iff_not]
    omega
  · intro hbt
    exact runTrace_blocked_effects s l _ (List.get_mem _ _ _) hbt
  · intro hbf
    have hcall := runTrace_serviceCalled s l hin ((runTrace s l).get ⟨i, h⟩)
      (List.get_mem (runTrace s l) i h)
    rw [hbf] at hcall
    simpa using hcall

/-- Witness for the amended C1: a 4-attempt all-successful session, at
the 4th attempt (index 3). -/
theorem claim_c1_capped_session_witness :
    (((runTrace c1State c1OkAttempts).get ⟨3, by decide⟩).blockedByCap
        = decide (3 ≤ countOkSome (c1OkAttempts.take 3))) ∧
    ((3 : Nat) < 3 →
      ((runTrace c1State c1OkAttempts).get ⟨3, by decide⟩).blockedByCap = false) ∧
    (((runTrace c1State c1OkAttempts).get ⟨3, by decide⟩).blockedByCap = true →
      ((runTrace c1State c1OkAttempts).get ⟨3, by decide⟩).serviceCalled = false ∧
      ((runTrace c1State c1OkAttempts).get ⟨3, by decide⟩).state.error = some limitMsg ∧
      ((runTrace c1State c1OkAttempts).get ⟨3, by decide⟩).state.showPricing = true) ∧
    (((runTrace c1State c1OkAttempts).get ⟨3, by decide⟩).blockedByCap = false →
      ((runTrace c1State c1OkAttempts).get ⟨3, by decide⟩).serviceCalled = true) :=
  claim_c1_capped_session c1State c1OkAttempts (by decide) rfl rfl (by decide) 3 (by decide)

/-- Claim C4: with no wallet connected, no attempt of any session is
ever blocked by the free-tier cap, regardless of the number of
attempts. -/
theorem claim_c4_unconnected_never_capped (s : PortalState)
    (l : List (Option String × VerifyOutcome))
    (hw : s.walletAddress = none) :
    ∀ r ∈ runTrace s l, r.blockedByCap = false := by
  induction l generalizing s with
  | nil => intro r hr; simp [runTrace] at hr
  | cons p rest ih =>
    intro r hr
    simp only [runTrace, List.mem_cons] at hr
    rcases hr with hr | hr
    · subst hr
      exact handleVerify_noWallet_notBlocked s p.1 p.2 hw
    · refine ih _ ?_ r hr
      rw [(handleVerify_fixed s p.1 p.2).2.1]
      exact hw

/-- Five successful attempts for the C4 witness. -/
def c4Attempts : List (Option String × VerifyOutcome) :=
  List.replicate 5 (some "9", .ok (some sampleCred))

/-- Witness for C4: the first of five attempts in an unconnected
session is not blocked. -/
theorem claim_c4_unconnected_never_capped_witness :
    (handleVerify initialPortalState (some "9") (.ok (some sampleCred))).blockedByCap
      = false :=
  claim_c4_unconnected_never_capped initialPortalState c4Attempts rfl _ (by decide)

/-- In a session of a subscribed visitor, no attempt is cap-rejected
and the counter never moves. -/
theorem runTrace_hasAccess (s : PortalState)
    (l : List (Option String × VerifyOutcome)) (ha : s.hasAccess = true) :
    ∀ r ∈ runTrace s l, r.blockedByCap = false ∧
      r.state.verificationCount = s.verificationCount := by
  induction l generalizing s with
  | nil => intro r hr; simp [runTrace] at hr
  | cons p rest ih =>
    intro r hr
    simp only [runTrace, List.mem_cons] at hr
    have hstep := handleVerify_hasAccess_step s p.1 p.2 ha
    rcases hr with hr | hr
    · subst hr; exact hstep
    · have ha' : (handleVerify s p.1 p.2).state.hasAccess = true := by
        rw [(handleVerify_fixed s p.1 p.2).2.2]; exact ha
      have h2 := ih _ ha' r hr
      exact ⟨h2.1, by rw [h2.2, hstep.2]⟩

/-- Claim C5: for a connected visitor whose subscription check returned
access (`checkUserSubscription` yields `hasAccess = true`, stored by
`checkAccess`), no attempt of any session is ever blocked by the cap
and the session counter is never incremented. -/
theorem claim_c5_subscribed_never_capped (s : PortalState) (a : String)
    (l : List (Option String × VerifyOutcome))
    (hw : s.walletAddress = some a) :
    ∀ r ∈ runTrace (checkAccess s true) l,
      r.blockedByCap = false ∧
      r.state.verificationCount = s.verificationCount := by
  have ha : (checkAccess s true).hasAccess = true := by simp [checkAccess, hw]
  have hcnt : (checkAccess s true).verificationCount = s.verificationCount := by
    simp [checkAccess, hw]
  intro r hr
  have h2 := runTrace_hasAccess (checkAccess s true) l ha r hr
  exact ⟨h2.1, by rw [h2.2, hcnt]⟩

/-- Session start state for the C5 witness. -/
def c5State : PortalState :=
  { initialPortalState with walletAddress := some "0xSubscriber" }

/-- Four successful attempts for the C5 witness. -/
def c5Attempts : List (Option String × VerifyOutcome) :=
  List.replicate 4 (some "2", .ok (some sampleCred))

/-- Witness for C5: the first of four successful attempts of a
subscribed session is not blocked and leaves the counter at 0. -/
theorem claim_c5_subscribed_never_capped_witness :
    (handleVerify (checkAccess c5State true) (some "2")
        (.ok (some sampleCred))).blockedByCap = false ∧
    (handleVerify (checkAccess c5State true) (some "2")
        (.ok (some sampleCred))).state.verificationCount
      = c5State.verificationCount :=
  claim_c5_subscribed_never_capped c5State "0xSubscriber" c5Attempts rfl _ (by decide)

/-! ### Claims about `StudentWallet` -/

/-- Counterexample to C6 as stated: starting disconnected, when wallet
authorization succeeds with an address and the network switch then
throws, the failure is caught and logged but the UI does NOT return to
the disconnected state — the wallet address is already set, so the
connect screen is not shown. -/
theorem claim_c6_counterexample :
    (handleConnectWallet initialWalletState (.ok (some "0xStudent")) .threw
        (.ok []) (.ok [])).failureLogged = true ∧
    (handleConnectWallet initialWalletState (.ok (some "0xStudent")) .threw
        (.ok []) (.ok [])).state.walletAddress = some "0xStudent" ∧
    connectScreenShown (handleConnectWallet initialWalletState
        (.ok (some "0xStudent")) .threw (.ok []) (.ok [])).state = false := by
  decide

/-- Claim C6 (amended): starting from the disconnected state, every
failure along `handleConnectWallet` is caught and logged; if wallet
authorization throws (or yields no address) the wallet address stays
`null` and the connect screen remains shown, but once authorization has
returned an address, the address is kept even when the network switch
or the credential load fails afterwards. -/
theorem claim_c6_connect_failure (s : WalletState)
    (connectRes : StepOutcome (Option String)) (switchRes : StepOutcome Unit)
    (onChain : StepOutcome (List Credential))
    (db : StepOutcome (List CredentialRecord))
    (hw : s.walletAddress = none) :
    (connectRes = .threw →
      (handleConnectWallet s connectRes switchRes onChain db).failureLogged = true ∧
      (handleConnectWallet s connectRes switchRes onChain db).state.walletAddress = none ∧
      connectScreenShown
        (handleConnectWallet s connectRes switchRes onChain db).state = true) ∧
    (connectRes = .ok none →
      (handleConnectWallet s connectRes switchRes onChain db).state.walletAddress
        = none) ∧
    (∀ a, connectRes = .ok (some a) →
      (handleConnectWallet s connectRes switchRes onChain db).state.walletAddress
        = some a ∧
      ((switchRes = .threw ∨ onChain = .threw ∨ db = .threw) →
        (handleConnectWallet s connectRes switchRes onChain db).failureLogged
          = true)) := by
  refine ⟨?_, ?_, ?_⟩
  · intro hc; subst hc
    simp [handleConnectWallet, connectScreenShown, hw]
  · intro hc; subst hc
    simp [handleConnectWallet, hw]
  · intro a hc; subst hc
    cases switchRes with
    | threw => simp [handleConnectWallet]
    | ok u =>
      cases onChain with
      | threw => simp [handleConnectWallet, loadCredentials]
      | ok creds =>
        cases db with
        | threw => simp [handleConnectWallet, loadCredentials]
        | ok dbCreds => simp [handleConnectWallet, loadCredentials]

/-- Witness for the amended C6: authorization throws from the
disconnected state, so the connect screen stays shown. -/
theorem claim_c6_connect_failure_witness :
    (handleConnectWallet initialWalletState .threw (.ok ()) (.ok [])
        (.ok [])).failureLogged = true ∧
    (handleConnectWallet initialWalletState .threw (.ok ()) (.ok [])
        (.ok [])).state.walletAddress = none ∧
    connectScreenShown (handleConnectWallet initialWalletState .threw (.ok ())
        (.ok []) (.ok [])).state = true :=
  (claim_c6_connect_failure initialWalletState .threw (.ok ()) (.ok []) (.ok [])
    rfl).1 rfl

/-- Counterexample to C7 as stated: when the on-chain fetch succeeds
and the backing-store fetch then throws, the failure is logged but the
credentials list HAS been modified (it already holds the on-chain
result), so the prior state is not left unchanged. -/
theorem claim_c7_counterexample :
    (loadCredentials initialWalletState (.ok [sampleCred]) .threw).errorLogged
      = true ∧
    (loadCredentials initialWalletState (.ok [sampleCred]) .threw).state.credentials
      = [sampleCred] ∧
    initialWalletState.credentials = [] := by
  decide

/-- Claim C7 (amended): the on-chain fetch and the backing-store fetch
are sequential; a throw from either aborts the rest of the load and is
only logged.  The backing-store records list is never modified on
failure; the credentials list is unmodified when the on-chain fetch
fails (and the backing-store fetch is then not even attempted), but
when the backing-store fetch fails the credentials list has already
been set to the on-chain result. -/
theorem claim_c7_load_failure (s : WalletState)
    (onChain : StepOutcome (List Credential))
    (db : StepOutcome (List CredentialRecord)) :
    (onChain = .threw →
      (loadCredentials s onChain db).state.credentials = s.credentials ∧
      (loadCredentials s onChain db).state.dbCredentials = s.dbCredentials ∧
      (loadCredentials s onChain db).dbFetchAttempted = false ∧
      (loadCredentials s onChain db).errorLogged = true) ∧
    (∀ creds, onChain = .ok creds → db = .threw →
      (loadCredentials s onChain db).state.credentials = creds ∧
      (loadCredentials s onChain db).state.dbCredentials = s.dbCredentials ∧
      (loadCredentials s onChain db).errorLogged = true) := by
  constructor
  · intro h; subst h
    simp [loadCredentials]
  · intro creds h1 h2; subst h1; subst h2
    simp [loadCredentials]

/-- Witness for the amended C7: the on-chain fetch throws, leaving both
lists unchanged and skipping the backing-store fetch. -/
theorem claim_c7_load_failure_witness :
    (loadCredentials initialWalletState .threw (.ok [])).state.credentials
      = initialWalletState.credentials ∧
    (loadCredentials initialWalletState .threw (.ok [])).state.dbCredentials
      = initialWalletState.dbCredentials ∧
    (loadCredentials initialWalletState .threw (.ok [])).dbFetchAttempted = false ∧
    (loadCredentials initialWalletState .threw (.ok [])).errorLogged = true :=
  (claim_c7_load_failure initialWalletState .threw (.ok [])).1 rfl
